import Mathlib

/-!
Shallow embedding of the Measure_RV repository (src/Code/UI_2.py and
src/Code/UI_test.py): the measurement-session controller, its limit
evaluation, instrument-line parsing, manual/auto acquisition state machine,
settings application, result rendering and export paths.  Numbers are
modelled by rationals; Python `None` becomes `Option`; exceptions become
`Option`/explicit refusal results.
-/

namespace MeasureRV

/-! ### Python string primitives used by the source -/

/-- The whitespace characters stripped by Python `str.strip()`. -/
def pyIsSpace (c : Char) : Bool :=
  c = ' ' || c = '\t' || c = '\n' || c = '\r' || c = '\x0b' || c = '\x0c'

/-- Python `str.strip()` on a character list. -/
def pyStrip (cs : List Char) : List Char :=
  ((cs.dropWhile pyIsSpace).reverse.dropWhile pyIsSpace).reverse

/-- Python `s.split(",")`: splits at every comma, keeping empty fields. -/
def splitComma : List Char → List (List Char)
  | [] => [[]]
  | c :: rest =>
    if c = ',' then [] :: splitComma rest
    else
      match splitComma rest with
      | g :: gs => (c :: g) :: gs
      | [] => [[c]]

/-- An optional leading sign, as consumed by Python numeric literals. -/
def parseSign : List Char → Int × List Char
  | '+' :: rest => (1, rest)
  | '-' :: rest => (-1, rest)
  | cs => (1, cs)

/-- Value of a digit run (most significant first). -/
def digitsVal (ds : List Char) : Nat :=
  ds.foldl (fun n c => 10 * n + (c.toNat - 48)) 0

/-- Tail of a float literal after the mantissa: empty, or `e`/`E`, an
optional sign and a junk-free digit run.  The mantissa is carried as the
integer `mantNum` with `fracLen` digits after the decimal point, so the
represented value is `sg * mantNum / 10 ^ fracLen`; the exponent shifts the
decimal point.  Models the exponent part accepted by Python `float()`. -/
def parseExpTail (sg mantNum : Int) (fracLen : Nat) (cs : List Char) : Option ℚ :=
  match cs with
  | [] => some (mkRat (sg * mantNum) (10 ^ fracLen))
  | c :: cs2 =>
    if c = 'e' || c = 'E' then
      let s := parseSign cs2
      let d := s.2.span Char.isDigit
      if d.1.isEmpty || !d.2.isEmpty then none
      else
        let e : Int := s.1 * (digitsVal d.1 : Int) - (fracLen : Int)
        if 0 ≤ e then some (mkRat (sg * mantNum * 10 ^ e.toNat) 1)
        else some (mkRat (sg * mantNum) (10 ^ (-e).toNat))
    else none

/-- Python `float(s)` on the decimal/exponent grammar used by the instrument
protocol: optional surrounding whitespace, optional sign,
`digits [. digits] | . digits`, optional exponent. -/
def pyFloat (s : String) : Option ℚ :=
  let cs := pyStrip s.data
  let sg := parseSign cs
  let ip := sg.2.span Char.isDigit
  match ip.2 with
  | '.' :: cs3 =>
    let fp := cs3.span Char.isDigit
    if ip.1.isEmpty && fp.1.isEmpty then none
    else
      parseExpTail sg.1 ((digitsVal ip.1 * 10 ^ fp.1.length + digitsVal fp.1 : Nat) : Int)
        fp.1.length fp.2
  | _ =>
    if ip.1.isEmpty then none
    else parseExpTail sg.1 (digitsVal ip.1 : Int) 0 ip.2

/-- Python `int(s)`: optional surrounding whitespace, optional sign, a
non-empty digit run and nothing else. -/
def pyInt (s : String) : Option Int :=
  let cs := pyStrip s.data
  let sg := parseSign cs
  let d := sg.2.span Char.isDigit
  if d.1.isEmpty || !d.2.isEmpty then none
  else some (sg.1 * (digitsVal d.1 : Int))

/-- Python `s.replace("+", "")`: removes every plus sign. -/
def removePlusAll (s : String) : String :=
  String.mk (s.data.filter (fun c => c ≠ '+'))

/-- Removing only a single leading plus sign.  This is the spec's wording for
the status field ("parses as an integer after stripping a leading `+`"),
kept separate from `removePlusAll` so the two rules can be compared. -/
def stripLeadingPlus (s : String) : String :=
  match s.data with
  | '+' :: rest => String.mk rest
  | _ => s

/-! ### Instrument response parsing (`_parse_meter_line`, UI_test.py) -/

/-- Result of `_parse_meter_line`: resistance in ohms, voltage in volts and
an optional integer status code. -/
structure ParsedLine where
  r_ohm : ℚ
  v_volt : ℚ
  status : Option Int
deriving DecidableEq

/-- `_parse_meter_line` (UI_test.py): strip the line, split on commas and
strip each field; fewer than two fields or a non-numeric field in the first
two positions is a malformed response (`none`); a third field is parsed as
an integer after `replace("+", "")`, with parse failure yielding an absent
status rather than an error. -/
def parse_meter_line (line : String) : Option ParsedLine :=
  let parts := (splitComma (pyStrip line.data)).map pyStrip
  match parts with
  | p0 :: p1 :: rest =>
    match pyFloat (String.mk p0), pyFloat (String.mk p1) with
    | some r, some v =>
      let status :=
        match rest with
        | p2 :: _ => pyInt (removePlusAll (String.mk p2))
        | [] => none
      some ⟨r, v, status⟩
    | _, _ => none
  | _ => none

/-! ### Limit evaluation (`_refresh_rows`, both variants) -/

/-- Boundary-inclusive interval membership, the `rmin <= r <= rmax` test of
`_refresh_rows`. -/
def within (lo hi x : ℚ) : Bool :=
  decide (lo ≤ x) && decide (x ≤ hi)

/-- `ok_r` / `ok_v` of `_refresh_rows`: the reading is present and within
its interval. -/
def okReading (lo hi : ℚ) : Option ℚ → Bool
  | none => false
  | some x => within lo hi x

/-- The normalized `[min,max]` limit pairs of a session. -/
structure Limits where
  rmin : ℚ
  rmax : ℚ
  vmin : ℚ
  vmax : ℚ
deriving DecidableEq

/-- `is_pass` of `_refresh_rows`: both readings present and in range. -/
def rowPass (L : Limits) (r v : Option ℚ) : Bool :=
  okReading L.rmin L.rmax r && okReading L.vmin L.vmax v

/-- The recorded `flags[i]` of `_refresh_rows`:
`(r is not None) and (v is not None) and is_pass`. -/
def rowFlag (L : Limits) (r v : Option ℚ) : Bool :=
  r.isSome && (v.isSome && rowPass L r v)

/-- Red highlighting of the R field in `_refresh_rows`:
`r is not None and not ok_r`. -/
def highlightR (L : Limits) (r : Option ℚ) : Bool :=
  match r with
  | none => false
  | some x => !(within L.rmin L.rmax x)

/-- Red highlighting of the V field in `_refresh_rows`. -/
def highlightV (L : Limits) (v : Option ℚ) : Bool :=
  match v with
  | none => false
  | some x => !(within L.vmin L.vmax x)

/-! ### Set±Tol derived bounds (`_r_bounds` / `_v_bounds`, UI_test.py) -/

/-- `_r_bounds` / `_v_bounds` of UI_test.py: the interval derived from a
center±tolerance pair. -/
def boundsSetTol (c tol : ℚ) : ℚ × ℚ :=
  (c - tol, c + tol)

/-- Evaluation of one value against the bounds derived from Set±Tol. -/
def evalSetTol (c tol x : ℚ) : Bool :=
  within (boundsSetTol c tol).1 (boundsSetTol c tol).2 x

/-- Evaluation against an explicit min/max pair, following the spec's words:
a value x passes iff min ≤ x ≤ max, inclusive on both ends. -/
def evalMinMax (lo hi x : ℚ) : Bool :=
  decide (lo ≤ x) && decide (x ≤ hi)

/-! ### Session state and the UI_2.py measurement machine -/

/-- The per-point data arrays of `_init_arrays`: parallel lists of optional
readings, the derived pass flags and the 0-based cursor. -/
structure Session where
  rValues : List (Option ℚ)
  vValues : List (Option ℚ)
  flags : List Bool
  currentIdx : Nat
deriving DecidableEq

/-- `_init_arrays`: fresh arrays of size `n`, cursor at 0. -/
def initSession (n : Nat) : Session :=
  ⟨List.replicate n none, List.replicate n none, List.replicate n false, 0⟩

/-- The state of the UI_2.py `App` that the controller manipulates: the
session arrays plus configuration and the auto-loop bookkeeping.  The Tk
variables holding limits and interval are modelled as plain fields; the
export side effect is modelled by counting snapshot exports. -/
structure App2State where
  numPoints : Nat
  autoInterval : Int
  limits : Limits
  sess : Session
  autoRunning : Bool
  autoJob : Option Int
  autoExport : Bool
  exportedCount : Nat
deriving DecidableEq

/-- A freshly constructed App: `_init_arrays` plus idle auto state. -/
def freshApp2 (n : Nat) (iv : Int) (L : Limits) (ae : Bool) : App2State :=
  ⟨n, iv, L, initSession n, false, none, ae, 0⟩

/-- `_refresh_rows` (UI_2.py): recompute every derived pass flag from the
current readings and limits. -/
def refreshRows (st : App2State) : App2State :=
  { st with sess := { st.sess with
      flags := List.zipWith (fun r v => rowFlag st.limits r v) st.sess.rValues st.sess.vValues } }

/-- `_measure_one` (UI_2.py): write the obtained reading at the cursor,
refresh the derived flags, then either advance the cursor (not at the last
point) or finish: when driven by Auto, stop the loop, cancel the pending
job and, if auto-export is on, export a snapshot. -/
def measureOne2 (fromAuto : Bool) (rd : ℚ × ℚ) (st : App2State) : App2State :=
  let idx := st.sess.currentIdx
  let st := { st with sess := { st.sess with
      rValues := st.sess.rValues.set idx (some rd.1),
      vValues := st.sess.vValues.set idx (some rd.2) } }
  let st := refreshRows st
  if st.sess.currentIdx < st.numPoints - 1 then
    { st with sess := { st.sess with currentIdx := st.sess.currentIdx + 1 } }
  else if fromAuto then
    let st := { st with autoRunning := false, autoJob := none }
    if st.autoExport then { st with exportedCount := st.exportedCount + 1 } else st
  else st

/-- A sequence of Manual `_measure_one` calls, one per successful reading. -/
def run2 (st : App2State) (rs : List (ℚ × ℚ)) : App2State :=
  rs.foldl (fun s rd => measureOne2 false rd s) st

/-- `_tick_auto` (UI_2.py): a no-op when no longer running; otherwise one
Auto measurement and, only if still running afterwards, scheduling of the
next tick after `max(50, auto_interval)` ms.  Returns the new state and the
number of measurements performed by this tick. -/
def tickAuto (rd : ℚ × ℚ) (st : App2State) : App2State × Nat :=
  if !st.autoRunning then (st, 0)
  else
    let st1 := measureOne2 true rd st
    if st1.autoRunning then ({ st1 with autoJob := some (max 50 st1.autoInterval) }, 1)
    else (st1, 1)

/-- `_auto_start` (UI_2.py): no-op if already running, otherwise set
running and immediately tick. -/
def autoStart (rd : ℚ × ℚ) (st : App2State) : App2State × Nat :=
  if st.autoRunning then (st, 0)
  else tickAuto rd { st with autoRunning := true }

/-- `_auto_stop` (UI_2.py): clear the running flag and cancel any pending
scheduled tick. -/
def autoStop (st : App2State) : App2State :=
  { st with autoRunning := false, autoJob := none }

/-! ### Settings application -/

/-- The values held by the settings Tk variables when Apply is clicked in
UI_2.py (already numeric; non-numeric entry text raises before any check
and is rejected the same way as a failed assertion). -/
structure Apply2Input where
  n : Int
  rmin : ℚ
  rmax : ℚ
  vmin : ℚ
  vmax : ℚ
  iv : Int
deriving DecidableEq

/-- `_apply_settings` (UI_2.py): the only validation is `assert n > 0`; the
interval is clamped to a floor of 10 (not rejected) and the limit values
are accepted unchecked.  If the point count changed the session is rebuilt
(after stopping Auto); otherwise the rows are refreshed.  Returns the new
state and whether the input was accepted. -/
def applySettings2 (inp : Apply2Input) (st : App2State) : App2State × Bool :=
  if inp.n ≤ 0 then (st, false)
  else
    let st := { st with limits := ⟨inp.rmin, inp.rmax, inp.vmin, inp.vmax⟩,
                        autoInterval := max 10 inp.iv }
    if inp.n.toNat ≠ st.sess.rValues.length then
      let st := autoStop st
      ({ st with numPoints := inp.n.toNat, sess := initSession inp.n.toNat }, true)
    else (refreshRows st, true)

/-! ### The UI_test.py variant: Set±Tol limits, serial gate -/

/-- The state of the UI_test.py `App`: limits as Set±Tol, plus the serial
connection status consumed by the measurement gate. -/
structure TestState where
  numPoints : Nat
  autoInterval : Int
  rSet : ℚ
  rTol : ℚ
  vSet : ℚ
  vTol : ℚ
  sess : Session
  autoRunning : Bool
  autoJob : Option Int
  autoExport : Bool
  exportedCount : Nat
  connected : Bool
deriving DecidableEq

/-- The normalized limits of a UI_test.py state, via `_r_bounds` and
`_v_bounds`. -/
def limitsTest (st : TestState) : Limits :=
  ⟨(boundsSetTol st.rSet st.rTol).1, (boundsSetTol st.rSet st.rTol).2,
   (boundsSetTol st.vSet st.vTol).1, (boundsSetTol st.vSet st.vTol).2⟩

/-- `_refresh_rows` (UI_test.py): identical flag recomputation against the
derived bounds. -/
def refreshRowsTest (st : TestState) : TestState :=
  { st with sess := { st.sess with
      flags := List.zipWith (fun r v => rowFlag (limitsTest st) r v)
        st.sess.rValues st.sess.vValues } }

/-- `_auto_stop` (UI_test.py). -/
def autoStopTest (st : TestState) : TestState :=
  { st with autoRunning := false, autoJob := none }

/-- The values held by the settings Tk variables when Apply is clicked in
UI_test.py (already numeric). -/
structure ApplyTestInput where
  n : Int
  iv : Int
  rSet : ℚ
  rTol : ℚ
  vSet : ℚ
  vTol : ℚ
deriving DecidableEq

/-- `_apply_settings` (UI_test.py): asserts `n > 0`, `iv ≥ 10`,
`rtol ≥ 0` and `vtol ≥ 0`; any failure rejects the input with no state
change.  On success the session is rebuilt when the point count changed
(after stopping Auto), otherwise rows are refreshed. -/
def applySettingsTest (inp : ApplyTestInput) (st : TestState) : TestState × Bool :=
  if inp.n ≤ 0 ∨ inp.iv < 10 ∨ inp.rTol < 0 ∨ inp.vTol < 0 then (st, false)
  else
    let st := { st with autoInterval := inp.iv, rSet := inp.rSet, rTol := inp.rTol,
                        vSet := inp.vSet, vTol := inp.vTol }
    if inp.n.toNat ≠ st.sess.rValues.length then
      let st := autoStopTest st
      ({ st with numPoints := inp.n.toNat, sess := initSession inp.n.toNat }, true)
    else (refreshRowsTest st, true)

/-! ### Instrument reading (UI_test.py) -/

/-- What `_query_fetc_once` can yield for the caller: one response line, or
a timeout (no response within the window).  The not-connected failure is
handled separately since it is raised before any exchange. -/
inductive QueryResult where
  | line (s : String)
  | timeout
deriving DecidableEq

/-- The signal surfaced when a measurement is refused. -/
inductive Signal where
  | notConnected
deriving DecidableEq

/-- Modelled from the spec: `_ensure_connected` is called by
`_measure_one` in UI_test.py but is not defined under src/; per §4.3 of the
spec it checks that an instrument connection is open, raising the
"not connected" warning when it is not. -/
def ensureConnected (st : TestState) : Bool :=
  st.connected

/-- `_read_meter` (UI_test.py): try the real `FETC?` exchange — which
raises when the serial port is not connected, on timeout, or on a
malformed response — and on ANY exception fall back to the simulated
reading (`sim` stands for the value the random fallback would produce).
On success the instrument's ohms are converted to milliohms (×1000). -/
def readMeterTest (connected : Bool) (resp : QueryResult) (sim : ℚ × ℚ) : ℚ × ℚ :=
  if !connected then sim
  else
    match resp with
    | .timeout => sim
    | .line s =>
      match parse_meter_line s with
      | none => sim
      | some pl => (pl.r_ohm * 1000, pl.v_volt)

/-- `_measure_one` (UI_test.py): refuse (raising the "not connected"
signal, and stopping the Auto loop when driven by Auto) unless connected;
otherwise obtain a reading, record it at the cursor, refresh flags and
advance or finish exactly as in UI_2.py. -/
def measureOneTest (fromAuto : Bool) (resp : QueryResult) (sim : ℚ × ℚ) (st : TestState) :
    TestState × Option Signal :=
  if !ensureConnected st then
    (if fromAuto then autoStopTest st else st, some .notConnected)
  else
    let rd := readMeterTest st.connected resp sim
    let idx := st.sess.currentIdx
    let st := { st with sess := { st.sess with
        rValues := st.sess.rValues.set idx (some rd.1),
        vValues := st.sess.vValues.set idx (some rd.2) } }
    let st := refreshRowsTest st
    if st.sess.currentIdx ≥ st.numPoints - 1 then
      let st := if fromAuto && st.autoExport
        then { st with exportedCount := st.exportedCount + 1 } else st
      let st := if fromAuto then { st with autoRunning := false, autoJob := none } else st
      (st, none)
    else
      ({ st with sess := { st.sess with currentIdx := st.sess.currentIdx + 1 } }, none)

/-! ### Result report rendering (`_result_lines`) -/

/-- The PASS label of both variants. -/
def LABEL_OK : String := "PASS"

/-- The NOT PASS label of both variants. -/
def LABEL_NG : String := "NOT PASS"

/-- `LABEL_OK if flag else LABEL_NG`. -/
def passLabel (b : Bool) : String :=
  if b then LABEL_OK else LABEL_NG

/-- `self.model_name.get().strip() or default`. -/
def modelOrDefault (m dflt : String) : String :=
  if (pyStrip m.data).isEmpty then dflt else String.mk (pyStrip m.data)

/-- Python `f"{x:.6f}"`: fixed six decimals, rounding to the nearest
multiple of 10⁻⁶ (stand-in for Python's float formatting; exact for the
terminating decimals this application produces, which have no ties). -/
def fmt6 (x : ℚ) : String :=
  let n : Int := Int.fdiv (2 * x.num * 1000000 + (x.den : Int)) (2 * (x.den : Int))
  let sign := if n < 0 then "-" else ""
  let m := n.natAbs
  let fracDs := Nat.toDigits 10 (m % 1000000)
  sign ++ toString (m / 1000000) ++ "." ++
    String.mk (List.replicate (6 - fracDs.length) '0') ++ String.mk fracDs

/-- Decimal digits of the fractional part `rem/den` (fuelled; twenty digits
cover every value this application prints). -/
def fracDigits : Nat → Nat → Nat → List Char
  | 0, _, _ => []
  | _ + 1, 0, _ => []
  | fuel + 1, rem, den => Char.ofNat (48 + rem * 10 / den) :: fracDigits fuel (rem * 10 % den) den

/-- Decimal rendering of a rational, standing in for Python `str(float)` in
the report header lines (exact for the short terminating decimals used by
this application). -/
def ratStr (x : ℚ) : String :=
  let sign := if x.num < 0 then "-" else ""
  let n := x.num.natAbs
  let frac := if n % x.den = 0 then ['0'] else fracDigits 20 (n % x.den) x.den
  sign ++ toString (n / x.den) ++ "." ++ String.mk frac

/-- One per-point row of `_result_lines` (both variants):
`index(1-based)<TAB>r(6 decimals)<TAB>v(6 decimals)<TAB>PASS|NOT PASS`,
or `index<TAB><TAB><TAB>N/A` when either reading is missing. -/
def resultRow (sess : Session) (i : Nat) : String :=
  match sess.rValues.getD i none, sess.vValues.getD i none with
  | some r, some v =>
    toString (i + 1) ++ "\t" ++ fmt6 r ++ "\t" ++ fmt6 v ++ "\t" ++
      passLabel (sess.flags.getD i false)
  | _, _ => toString (i + 1) ++ "\t\t\tN/A"

/-- `_result_lines` (UI_2.py): header block, one row per point, blank line
and the trailing Overall line, PASS iff every resistance is present and
every flag is true. -/
def resultLines2 (st : App2State) (modelName timeStr : String) : List String :=
  ["Model\t" ++ modelOrDefault modelName "-",
   "Time\t" ++ timeStr,
   "",
   "Limits R\tmin=" ++ ratStr st.limits.rmin ++ "\tmax=" ++ ratStr st.limits.rmax ++ "  (Ohm)",
   "Limits V\tmin=" ++ ratStr st.limits.vmin ++ "\tmax=" ++ ratStr st.limits.vmax ++ "  (Volt)",
   "",
   "Point\tR(Ω)\tV(V)\tResult"]
  ++ (List.range st.numPoints).map (resultRow st.sess)
  ++ ["",
      "Overall\t" ++ passLabel (st.sess.rValues.all Option.isSome && st.sess.flags.all (fun b => b))]

/-- `_result_lines` (UI_test.py): header block and one row per point; this
variant emits no Overall line. -/
def resultLinesTest (st : TestState) (modelName timeStr : String) : List String :=
  ["Model\t" ++ modelOrDefault modelName "-",
   "Time\t" ++ timeStr,
   "",
   "R Set\t" ++ ratStr st.rSet ++ " mΩ\tTol ±" ++ ratStr st.rTol ++ " mΩ\t(min=" ++
     ratStr (limitsTest st).rmin ++ ", max=" ++ ratStr (limitsTest st).rmax ++ ")",
   "V Set\t" ++ ratStr st.vSet ++ " V\tTol ±" ++ ratStr st.vTol ++ " V\t(min=" ++
     ratStr (limitsTest st).vmin ++ ", max=" ++ ratStr (limitsTest st).vmax ++ ")",
   "",
   "Cell\tR(mΩ)\tV(V)\tResult"]
  ++ (List.range st.numPoints).map (resultRow st.sess)

/-! ### Simulated reading generator (`_read_meter` fallback) -/

/-- `random.uniform(a, b)` realized by a unit draw `u ∈ [0,1]`:
`a + (b-a)*u`. -/
def pyUniform (a b u : ℚ) : ℚ :=
  a + (b - a) * u

/-- `random.choice([-1, 1])` realized by a Boolean draw. -/
def pySignChoice (s : Bool) : ℚ :=
  if s then 1 else -1

/-- The simulated reading of `_read_meter` (UI_2.py; the UI_test.py
fallback is the same computation on the Set±Tol-derived bounds):
centered on the midpoints of the limits, with probability 0.8 each axis
uniform within ±0.6 of the half-span, else displaced from the center by a
uniform amount in [0.7, 1.6] half-spans with a random sign.  The draws of
the Python `random` module are parameters: `p` for `random.random()`,
`uR`/`uV` for the unit draws behind the two `random.uniform` calls and
`sR`/`sV` for the two `random.choice([-1,1])` calls. -/
def readMeterSim (L : Limits) (p uR uV : ℚ) (sR sV : Bool) : ℚ × ℚ :=
  let rCenter := (L.rmin + L.rmax) / 2
  let vCenter := (L.vmin + L.vmax) / 2
  let rSpan := (L.rmax - L.rmin) / 2
  let vSpan := (L.vmax - L.vmin) / 2
  if p < 0.8 then
    (pyUniform (rCenter - 0.6 * rSpan) (rCenter + 0.6 * rSpan) uR,
     pyUniform (vCenter - 0.6 * vSpan) (vCenter + 0.6 * vSpan) uV)
  else
    (rCenter + pySignChoice sR * pyUniform (0.7 * rSpan) (1.6 * rSpan) uR,
     vCenter + pySignChoice sV * pyUniform (0.7 * vSpan) (1.6 * vSpan) uV)

/-! ### Export paths over an abstract filesystem -/

/-- `s.split(sep)` on an arbitrary separator. -/
def splitChar (sep : Char) : List Char → List (List Char)
  | [] => [[]]
  | c :: rest =>
    if c = sep then [] :: splitChar sep rest
    else
      match splitChar sep rest with
      | g :: gs => (c :: g) :: gs
      | [] => [[c]]

/-- Joining path segments back with `/`, the inverse of `splitChar`. -/
def joinPath : List (List Char) → List Char
  | [] => []
  | [g] => g
  | g :: gs => g ++ '/' :: joinPath gs

/-- The chain of directories `os.makedirs` creates for a path: every
prefix of the `/`-separated path, ending with the path itself. -/
def ancestorDirs (p : String) : List String :=
  (List.range (splitChar '/' p.data).length).map
    (fun k => String.mk (joinPath ((splitChar '/' p.data).take (k + 1))))

/-- The observable outcome of an export attempt: a successful write, the
error reported from inside the `try/except` (the error messagebox), or an
exception raised outside any `try/except` — an uncaught crash of the
handler. -/
inductive ExportOutcome where
  | ok
  | reportedError (msg : String)
  | uncaught
deriving DecidableEq

/-- An abstract filesystem: the set of existing directories, which missing
folders `os.makedirs` is able to create (an unwritable parent or a path
occupied by a file makes creation raise), which destinations accept a file
write, and the files written so far. -/
structure FileSys where
  dirs : List String
  creatable : String → Bool
  writable : String → Bool
  files : List (String × String)

/-- `os.makedirs(folder, exist_ok=True)`: succeeds — with the folder and
all its parents existing afterwards — when the folder already exists or
can be created; otherwise it raises `OSError` (`none`). -/
def makedirs (folder : String) (fs : FileSys) : Option FileSys :=
  if folder ∈ fs.dirs ∨ fs.creatable folder = true then
    some { fs with dirs := ancestorDirs folder ++ fs.dirs }
  else none

/-- `self.save_folder.get().strip() or os.getcwd()`. -/
def saveFolderOrCwd (saveFolder cwd : String) : String :=
  if (pyStrip saveFolder.data).isEmpty then cwd else String.mk (pyStrip saveFolder.data)

/-- `_export_snapshot` (both variants): resolve the folder and call
`os.makedirs` on it BEFORE the `try/except` — so a failing creation
raises an uncaught exception, not the reported export error; then build
the timestamped filename and write the report inside the `try`, where an
unwritable destination yields the reported "Auto export failed" error.
Session state is only read. -/
def exportSnapshot (st : App2State) (modelName saveFolder cwd timeStr ts : String)
    (fs : FileSys) : App2State × FileSys × ExportOutcome :=
  let folder := saveFolderOrCwd saveFolder cwd
  match makedirs folder fs with
  | none => (st, fs, .uncaught)
  | some fs1 =>
    let name := modelOrDefault modelName "model" ++ "_" ++ ts ++ ".txt"
    let path := folder ++ "/" ++ name
    if fs1.writable path then
      (st, { fs1 with files :=
        (path, String.intercalate "\n" (resultLines2 st modelName timeStr)) :: fs1.files }, .ok)
    else
      (st, fs1, .reportedError "Auto export failed")

/-- `_manual_export` (UI_2.py): `os.makedirs` on the configured folder
runs before the save dialog and outside any `try/except` — a failing
creation crashes uncaught before the dialog is even shown; a cancelled
dialog writes nothing and reports nothing; an unwritable chosen
destination yields the reported save error from inside the `try`.
Session state is only read. -/
def manualExport (st : App2State) (modelName saveFolder cwd timeStr : String)
    (dialogPath : Option String) (fs : FileSys) : App2State × FileSys × ExportOutcome :=
  let folder := saveFolderOrCwd saveFolder cwd
  match makedirs folder fs with
  | none => (st, fs, .uncaught)
  | some fs1 =>
    match dialogPath with
    | none => (st, fs1, .ok)
    | some path =>
      if fs1.writable path then
        (st, { fs1 with files :=
          (path, String.intercalate "\n" (resultLines2 st modelName timeStr)) :: fs1.files }, .ok)
      else
        (st, fs1, .reportedError "Save failed")

/-- An empty filesystem on which directory creation and writing always
succeed. -/
def exFsFree : FileSys :=
  ⟨[], fun _ => true, fun _ => true, []⟩

/-- An empty filesystem on which no directory can be created (e.g. an
unwritable parent), though file writes into existing folders would
succeed. -/
def exFsBlocked : FileSys :=
  ⟨[], fun _ => false, fun _ => true, []⟩

/-! ### Example states used by concrete claims -/

/-- The limits `[9.5, 10.5]`, `[4.9, 5.1]` of the spec's export example. -/
def exLimits : Limits :=
  ⟨mkRat 19 2, mkRat 21 2, mkRat 49 10, mkRat 51 10⟩

/-- The example session: point 1 measured `(10.1, 5.0)` and passing,
point 2 never measured. -/
def exSession : Session :=
  ⟨[some (mkRat 101 10), none], [some 5, none], [true, false], 1⟩

/-- The UI_2.py state holding the example session. -/
def exApp2 : App2State :=
  ⟨2, 500, exLimits, exSession, false, none, false, 0⟩

/-- The UI_test.py state holding the example session, with Set±Tol values
deriving the same limits (10±0.5, 5±0.1). -/
def exTest : TestState :=
  ⟨2, 500, 10, mkRat 1 2, 5, mkRat 1 10, exSession, false, none, false, 0, false⟩

/-! ### Shared helper lemmas -/

lemma measureOne2_fields (fromAuto : Bool) (rd : ℚ × ℚ) (st : App2State) :
    (measureOne2 fromAuto rd st).sess.rValues =
        st.sess.rValues.set st.sess.currentIdx (some rd.1) ∧
    (measureOne2 fromAuto rd st).sess.vValues =
        st.sess.vValues.set st.sess.currentIdx (some rd.2) ∧
    (measureOne2 fromAuto rd st).sess.currentIdx =
        (if st.sess.currentIdx < st.numPoints - 1 then st.sess.currentIdx + 1
         else st.sess.currentIdx) ∧
    (measureOne2 fromAuto rd st).numPoints = st.numPoints := by
  by_cases h : st.sess.currentIdx < st.numPoints - 1 <;>
    simp [measureOne2, refreshRows, h] <;>
    cases fromAuto <;> simp <;> cases st.autoExport <;> simp

lemma take_succ_set (l : List α) (k : Nat) (a : α) (h : k < l.length) :
    (l.set k a).take (k + 1) = l.take k ++ [a] := by
  rw [List.set_eq_take_cons_drop a h, List.take_append_eq_append_take]
  have h1 : (l.take k).length = k := List.length_take_of_le (Nat.le_of_lt h)
  simp [h1, List.take_take]

lemma set_last_eq (l : List α) (k : Nat) (a : α) (h : l.length = k + 1) :
    l.set k a = l.take k ++ [a] := by
  have hk : k < l.length := by omega
  have := take_succ_set l k a hk
  rwa [List.take_of_length_le (by simp [h])] at this

lemma run2_fill (n : Nat) :
    ∀ (rs : List (ℚ × ℚ)) (st : App2State), rs ≠ [] →
      st.numPoints = n →
      st.sess.rValues.length = n →
      st.sess.vValues.length = n →
      st.sess.currentIdx + rs.length = n →
      (run2 st rs).sess.rValues =
          st.sess.rValues.take st.sess.currentIdx ++ rs.map (fun rd => some rd.1) ∧
      (run2 st rs).sess.vValues =
          st.sess.vValues.take st.sess.currentIdx ++ rs.map (fun rd => some rd.2) ∧
      (run2 st rs).sess.currentIdx = n - 1 ∧
      (run2 st rs).numPoints = n := by
  intro rs
  induction rs with
  | nil => intro st h; exact absurd rfl h
  | cons rd rs ih =>
    intro st _ hnp hlr hlv hidx
    obtain ⟨h1, h2, h3, h4⟩ := measureOne2_fields false rd st
    simp only [List.length_cons] at hidx
    have hcur : st.sess.currentIdx < n := by omega
    have hrun : run2 st (rd :: rs) = run2 (measureOne2 false rd st) rs := by
      simp [run2]
    by_cases hrs : rs = []
    · subst hrs
      simp only [List.length_nil] at hidx
      have hlast : st.sess.currentIdx = n - 1 := by omega
      have hnotlt : ¬ st.sess.currentIdx < st.numPoints - 1 := by omega
      rw [hrun]
      simp only [run2, List.foldl_nil]
      refine ⟨?_, ?_, ?_, ?_⟩
      · rw [h1, set_last_eq _ _ _ (by omega)]; simp
      · rw [h2, set_last_eq _ _ _ (by omega)]; simp
      · rw [h3, if_neg hnotlt, hlast]
      · rw [h4, hnp]
    · have hlen1 : 1 ≤ rs.length := by
        cases rs with
        | nil => exact absurd rfl hrs
        | cons a l => simp
      have hlt : st.sess.currentIdx < st.numPoints - 1 := by omega
      obtain ⟨g1, g2, g3, g4⟩ := ih (measureOne2 false rd st) hrs
        (by rw [h4, hnp])
        (by rw [h1]; simp [hlr])
        (by rw [h2]; simp [hlv])
        (by rw [h3, if_pos hlt]; omega)
      rw [hrun]
      refine ⟨?_, ?_, g3, g4⟩
      · rw [g1, h1, h3, if_pos hlt, take_succ_set _ _ _ (by omega)]
        simp
      · rw [g2, h2, h3, if_pos hlt, take_succ_set _ _ _ (by omega)]
        simp

lemma run2_hold (ys : List (ℚ × ℚ)) :
    ∀ (st : App2State), st.sess.currentIdx = st.numPoints - 1 →
      (run2 st ys).sess.currentIdx = st.numPoints - 1 ∧
      (run2 st ys).numPoints = st.numPoints := by
  induction ys with
  | nil => intro st h; exact ⟨h, rfl⟩
  | cons rd ys ih =>
    intro st h
    obtain ⟨h1, h2, h3, h4⟩ := measureOne2_fields false rd st
    have hrun : run2 st (rd :: ys) = run2 (measureOne2 false rd st) ys := by simp [run2]
    rw [hrun]
    have hcond : ¬ st.sess.currentIdx < st.numPoints - 1 := by omega
    obtain ⟨g1, g2⟩ := ih (measureOne2 false rd st) (by rw [h3, if_neg hcond, h4, h])
    rw [g1, g2, h4]
    exact ⟨rfl, rfl⟩

/-! ### Claim theorems -/

/-- C1: the recorded pass flag is true iff both readings are present and
each lies within its closed interval (boundary-inclusive); with only one
reading present the point is a fail; and the per-field highlighting flags
exactly the field that is present and out of its own range. -/
theorem c1_pass_iff_both_within (L : Limits) (r v : Option ℚ) :
    (rowFlag L r v = true ↔
      (∃ x, r = some x ∧ L.rmin ≤ x ∧ x ≤ L.rmax) ∧
      (∃ y, v = some y ∧ L.vmin ≤ y ∧ y ≤ L.vmax)) ∧
    (r.isSome = true → v = none → rowFlag L r v = false) ∧
    (v.isSome = true → r = none → rowFlag L r v = false) ∧
    (highlightR L r = true ↔ ∃ x, r = some x ∧ ¬(L.rmin ≤ x ∧ x ≤ L.rmax)) ∧
    (highlightV L v = true ↔ ∃ y, v = some y ∧ ¬(L.vmin ≤ y ∧ y ≤ L.vmax)) := by
  cases r <;> cases v <;>
    simp [rowFlag, rowPass, okReading, within, highlightR, highlightV, and_assoc,
      or_iff_not_imp_left, not_lt]

/-- Witness for C1 at limits [9,11]×[4,6] with r = 10 present and v absent. -/
theorem c1_pass_iff_both_within_witness :
    (some (10:ℚ)).isSome = true ∧ rowFlag ⟨9, 11, 4, 6⟩ (some (10:ℚ)) none = false :=
  ⟨rfl, (c1_pass_iff_both_within ⟨9, 11, 4, 6⟩ (some 10) none).2.1 rfl rfl⟩

/-- C3: for tol ≥ 0, evaluating a value against the Set±Tol derived bounds
coincides with evaluating it against the explicit pair min = set − tol,
max = set + tol; in particular set=10, tol=0.5 agrees with min=9.5,
max=10.5 on every input. -/
theorem c3_set_tol_equiv (c tol x : ℚ) (_htol : 0 ≤ tol) :
    evalSetTol c tol x = evalMinMax (c - tol) (c + tol) x ∧
    (∀ y : ℚ, evalSetTol 10 0.5 y = evalMinMax 9.5 10.5 y) := by
  refine ⟨rfl, fun y => ?_⟩
  have h1 : (10:ℚ) - 0.5 = 9.5 := by norm_num
  have h2 : (10:ℚ) + 0.5 = 10.5 := by norm_num
  simp [evalSetTol, evalMinMax, within, boundsSetTol, h1, h2]

/-- Witness for C3 at set=3, tol=1, x=4. -/
theorem c3_set_tol_equiv_witness :
    (0:ℚ) ≤ 1 ∧
      (evalSetTol 3 1 4 = evalMinMax (3 - 1) (3 + 1) 4 ∧
        ∀ y : ℚ, evalSetTol 10 0.5 y = evalMinMax 9.5 10.5 y) :=
  ⟨by decide, c3_set_tol_equiv 3 1 4 (by decide)⟩

/-- C5: from a fresh session of n ≥ 1 points, n successful `_measure_one`
calls record the i-th reading at index i (so indices 0..n−1 are visited in
order), leave the cursor at n−1, and any number of further calls keeps the
cursor at n−1 — no wraparound, no advance past the last index. -/
theorem c5_cursor_visits_in_order (n : Nat) (hn : 1 ≤ n) (rs ys : List (ℚ × ℚ))
    (hlen : rs.length = n) (iv : Int) (L : Limits) (ae : Bool) :
    (run2 (freshApp2 n iv L ae) rs).sess.rValues = rs.map (fun rd => some rd.1) ∧
    (run2 (freshApp2 n iv L ae) rs).sess.vValues = rs.map (fun rd => some rd.2) ∧
    (run2 (freshApp2 n iv L ae) rs).sess.currentIdx = n - 1 ∧
    (run2 (run2 (freshApp2 n iv L ae) rs) ys).sess.currentIdx = n - 1 := by
  have hne : rs ≠ [] := by
    rintro rfl
    simp at hlen
    omega
  obtain ⟨g1, g2, g3, g4⟩ := run2_fill n rs (freshApp2 n iv L ae) hne rfl
    (by simp [freshApp2, initSession]) (by simp [freshApp2, initSession])
    (by simp [freshApp2, initSession, hlen])
  refine ⟨by simpa [freshApp2, initSession] using g1,
          by simpa [freshApp2, initSession] using g2, g3, ?_⟩
  obtain ⟨k1, k2⟩ := run2_hold ys (run2 (freshApp2 n iv L ae) rs) (by rw [g3, g4])
  rw [k1, g4]

/-- Witness for C5: two points, two measurements, then one extra call. -/
theorem c5_cursor_visits_in_order_witness :
    (1 ≤ 2 ∧ ([((1:ℚ), (2:ℚ)), (3, 4)] : List (ℚ × ℚ)).length = 2) ∧
    (run2 (freshApp2 2 500 ⟨9, 11, 4, 6⟩ false) [(1, 2), (3, 4)]).sess.rValues =
        [some 1, some 3] ∧
    (run2 (freshApp2 2 500 ⟨9, 11, 4, 6⟩ false) [(1, 2), (3, 4)]).sess.vValues =
        [some 2, some 4] ∧
    (run2 (freshApp2 2 500 ⟨9, 11, 4, 6⟩ false) [(1, 2), (3, 4)]).sess.currentIdx = 1 ∧
    (run2 (run2 (freshApp2 2 500 ⟨9, 11, 4, 6⟩ false) [(1, 2), (3, 4)])
        [(5, 6)]).sess.currentIdx = 1 :=
  ⟨⟨by decide, rfl⟩,
    c5_cursor_visits_in_order 2 (by decide) [(1, 2), (3, 4)] [(5, 6)] rfl 500 ⟨9, 11, 4, 6⟩ false⟩


/-- C6: starting Auto on a fresh one-point session performs exactly one
measurement and transitions directly to finished: Auto-running is cleared
and no next tick is scheduled; and a tick firing when the controller is no
longer running performs no work at all. -/
theorem c6_auto_single_point (iv : Int) (L : Limits) (ae : Bool) (rd : ℚ × ℚ) :
    ((autoStart rd (freshApp2 1 iv L ae)).2 = 1 ∧
     (autoStart rd (freshApp2 1 iv L ae)).1.autoRunning = false ∧
     (autoStart rd (freshApp2 1 iv L ae)).1.autoJob = none) ∧
    (∀ (st : App2State) (rd2 : ℚ × ℚ), st.autoRunning = false →
      tickAuto rd2 st = (st, 0)) := by
  constructor
  · simp [autoStart, freshApp2, tickAuto, measureOne2, refreshRows, initSession]
    cases ae <;> simp
  · intro st rd2 h
    simp [tickAuto, h]

/-- Witness for C6: the no-op tick at a concrete idle state. -/
theorem c6_auto_single_point_witness :
    (freshApp2 1 10 ⟨9, 11, 4, 6⟩ false).autoRunning = false ∧
    tickAuto (5, 5) (freshApp2 1 10 ⟨9, 11, 4, 6⟩ false) =
      (freshApp2 1 10 ⟨9, 11, 4, 6⟩ false, 0) :=
  ⟨rfl, (c6_auto_single_point 10 ⟨9, 11, 4, 6⟩ false (7, 5)).2 _ _ rfl⟩

/-- C7 counterexample: UI_2.py `_apply_settings` accepts a configuration
with r_min = 2 > 1 = r_max and a 5 ms interval: the input is not rejected,
the inverted limits are installed, and the interval is clamped to 10 —
a mutation — rather than refused. -/
theorem c7_counterexample :
    (applySettings2 ⟨1, 2, 1, 4, 6, 5⟩ (freshApp2 1 500 ⟨9, 11, 4, 6⟩ false)).2 = true ∧
    (applySettings2 ⟨1, 2, 1, 4, 6, 5⟩ (freshApp2 1 500 ⟨9, 11, 4, 6⟩ false)).1.limits =
      ⟨2, 1, 4, 6⟩ ∧
    (applySettings2 ⟨1, 2, 1, 4, 6, 5⟩ (freshApp2 1 500 ⟨9, 11, 4, 6⟩ false)).1.autoInterval
      = 10 := by
  decide

/-- C7 amended: in the UI_test.py variant a non-positive point count, an
interval below 10 ms or a negative tolerance (derived min > max) is
rejected with no state change; in the UI_2.py variant only a non-positive
point count is rejected (with no state change), while min > max limits are
accepted unchecked and a sub-10 ms interval is clamped to 10 instead of
being rejected. -/
theorem c7_amended_validation (inp2 : Apply2Input) (st2 : App2State)
    (inpT : ApplyTestInput) (stT : TestState) :
    ((applySettings2 inp2 st2).2 = true ↔ 0 < inp2.n) ∧
    ((applySettings2 inp2 st2).2 = false → (applySettings2 inp2 st2).1 = st2) ∧
    ((applySettings2 inp2 st2).2 = true →
      (applySettings2 inp2 st2).1.autoInterval = max 10 inp2.iv) ∧
    ((applySettingsTest inpT stT).2 = true ↔
      0 < inpT.n ∧ 10 ≤ inpT.iv ∧ 0 ≤ inpT.rTol ∧ 0 ≤ inpT.vTol) ∧
    ((applySettingsTest inpT stT).2 = false → (applySettingsTest inpT stT).1 = stT) := by
  refine ⟨?_, ?_, ?_, ?_, ?_⟩
  · by_cases h : inp2.n ≤ 0
    · simp [applySettings2, h]
    · simp only [applySettings2, if_neg h]
      split <;> simp <;> try omega
  · by_cases h : inp2.n ≤ 0
    · simp [applySettings2, h]
    · simp only [applySettings2, if_neg h]
      split <;> simp
  · by_cases h : inp2.n ≤ 0
    · simp [applySettings2, h]
    · simp only [applySettings2, if_neg h]
      split <;> simp [autoStop, refreshRows]
  · have hsnd : (applySettingsTest inpT stT).2 =
        !decide (inpT.n ≤ 0 ∨ inpT.iv < 10 ∨ inpT.rTol < 0 ∨ inpT.vTol < 0) := by
      by_cases h : inpT.n ≤ 0 ∨ inpT.iv < 10 ∨ inpT.rTol < 0 ∨ inpT.vTol < 0
      · simp [applySettingsTest, h]
      · simp only [applySettingsTest, if_neg h]
        split <;> simp [h]
    rw [hsnd]
    simp [not_or, not_lt]
  · by_cases h : inpT.n ≤ 0 ∨ inpT.iv < 10 ∨ inpT.rTol < 0 ∨ inpT.vTol < 0
    · simp [applySettingsTest, h]
    · simp only [applySettingsTest, if_neg h]
      split <;> simp

/-- Witness for C7: concrete rejected inputs leave both states unchanged. -/
theorem c7_amended_validation_witness :
    (applySettings2 ⟨0, 9, 11, 4, 6, 500⟩ (freshApp2 1 500 ⟨9, 11, 4, 6⟩ false)).2 = false ∧
    (applySettings2 ⟨0, 9, 11, 4, 6, 500⟩ (freshApp2 1 500 ⟨9, 11, 4, 6⟩ false)).1 =
      freshApp2 1 500 ⟨9, 11, 4, 6⟩ false ∧
    (applySettingsTest ⟨1, 5, 10, 1, 5, 1⟩
      ⟨1, 500, 10, 1, 5, 1, initSession 1, false, none, false, 0, false⟩).2 = false ∧
    (applySettingsTest ⟨1, 5, 10, 1, 5, 1⟩
      ⟨1, 500, 10, 1, 5, 1, initSession 1, false, none, false, 0, false⟩).1 =
      ⟨1, 500, 10, 1, 5, 1, initSession 1, false, none, false, 0, false⟩ :=
  ⟨by decide,
   (c7_amended_validation ⟨0, 9, 11, 4, 6, 500⟩ (freshApp2 1 500 ⟨9, 11, 4, 6⟩ false)
      ⟨1, 5, 10, 1, 5, 1⟩
      ⟨1, 500, 10, 1, 5, 1, initSession 1, false, none, false, 0, false⟩).2.1 (by decide),
   by decide,
   (c7_amended_validation ⟨0, 9, 11, 4, 6, 500⟩ (freshApp2 1 500 ⟨9, 11, 4, 6⟩ false)
      ⟨1, 5, 10, 1, 5, 1⟩
      ⟨1, 500, 10, 1, 5, 1, initSession 1, false, none, false, 0, false⟩).2.2.2.2 (by decide)⟩



/-- C2: with no open connection, `_measure_one` is refused — the
"not connected" signal is raised, the session (readings, flags, cursor) is
untouched, the Auto loop is halted when the call came from Auto, and in
Manual the state is entirely unchanged.  The refusal is never masked by
the simulated fallback: that fallback applies only when connected, to a
timeout or a malformed response (where the simulated pair is recorded),
while a parsable response yields the real converted reading. -/
theorem c2_not_connected_refused (fromAuto : Bool) (resp : QueryResult) (sim : ℚ × ℚ)
    (st : TestState) (h : st.connected = false) :
    (measureOneTest fromAuto resp sim st).2 = some Signal.notConnected ∧
    (measureOneTest fromAuto resp sim st).1.sess = st.sess ∧
    (fromAuto = true → (measureOneTest fromAuto resp sim st).1 = autoStopTest st) ∧
    (fromAuto = false → (measureOneTest fromAuto resp sim st).1 = st) ∧
    (∀ sim2 : ℚ × ℚ, readMeterTest true QueryResult.timeout sim2 = sim2) ∧
    (∀ (s : String) (sim2 : ℚ × ℚ), parse_meter_line s = none →
      readMeterTest true (QueryResult.line s) sim2 = sim2) ∧
    (∀ (s : String) (pl : ParsedLine) (sim2 : ℚ × ℚ), parse_meter_line s = some pl →
      readMeterTest true (QueryResult.line s) sim2 = (pl.r_ohm * 1000, pl.v_volt)) := by
  refine ⟨?_, ?_, ?_, ?_, fun sim2 => rfl, ?_, ?_⟩
  · simp [measureOneTest, ensureConnected, h]
  · cases fromAuto <;> simp [measureOneTest, ensureConnected, h, autoStopTest]
  · intro hfa; subst hfa; simp [measureOneTest, ensureConnected, h]
  · intro hfa; subst hfa; simp [measureOneTest, ensureConnected, h]
  · intro s sim2 hs
    simp [readMeterTest, hs]
  · intro s pl sim2 hs
    simp [readMeterTest, hs]

/-- Witness for C2 at the concrete disconnected example state. -/
theorem c2_not_connected_refused_witness :
    (exTest.connected = false) ∧
    (measureOneTest true QueryResult.timeout (3, 4) exTest).2 = some Signal.notConnected ∧
    (measureOneTest true QueryResult.timeout (3, 4) exTest).1 = autoStopTest exTest ∧
    readMeterTest true QueryResult.timeout (3, 4) = (3, 4) :=
  ⟨rfl,
   (c2_not_connected_refused true QueryResult.timeout (3, 4) exTest rfl).1,
   (c2_not_connected_refused true QueryResult.timeout (3, 4) exTest rfl).2.2.1 rfl,
   (c2_not_connected_refused true QueryResult.timeout (3, 4) exTest rfl).2.2.2.2.1 (3, 4)⟩

/-- C4 counterexample: on "1,2,3+4" the code returns status 34 — it
removes every plus sign before `int()` — while the claim's rule of
stripping only a leading `+` yields no integer, i.e. an absent status. -/
theorem c4_counterexample :
    parse_meter_line "1,2,3+4" = some ⟨1, 2, some 34⟩ ∧
    pyInt (stripLeadingPlus "3+4") = none := by
  constructor
  · decide
  · decide

/-- C4 amended: the example line parses to (0.00587263, 3.0994, status 0);
"abc" is malformed; parsing succeeds exactly when the comma-split line has
at least two fields whose first two parse as floats; and a third field's
status parses as an integer after removing every `+` character (not just a
leading one), with a failed integer parse giving an absent status. -/
theorem c4_parse_amended :
    parse_meter_line "+5.87263E-03,+3.09940E+00,+0" =
      some ⟨mkRat 587263 100000000, mkRat 30994 10000, some 0⟩ ∧
    (mkRat 587263 100000000 : ℚ) = 0.00587263 ∧
    (mkRat 30994 10000 : ℚ) = 3.0994 ∧
    parse_meter_line "abc" = none ∧
    (∀ line : String, (parse_meter_line line).isSome = true ↔
      ∃ p0 p1 rest, (splitComma (pyStrip line.data)).map pyStrip = p0 :: p1 :: rest ∧
        (pyFloat (String.mk p0)).isSome = true ∧ (pyFloat (String.mk p1)).isSome = true) ∧
    (∀ (line : String) (pl : ParsedLine) (p0 p1 p2 : List Char) (rest : List (List Char)),
      parse_meter_line line = some pl →
      (splitComma (pyStrip line.data)).map pyStrip = p0 :: p1 :: p2 :: rest →
      pl.status = pyInt (removePlusAll (String.mk p2))) := by
  refine ⟨by decide, ?_, ?_, by decide, ?_, ?_⟩
  · rw [Rat.mkRat_eq_div]; norm_num
  · rw [Rat.mkRat_eq_div]; norm_num
  · intro line
    rcases hp : (splitComma (pyStrip line.data)).map pyStrip with _ | ⟨p0, rest0⟩
    · simp [parse_meter_line, hp]
    rcases rest0 with _ | ⟨p1, rest⟩
    · simp [parse_meter_line, hp]
    rcases hf0 : pyFloat (String.mk p0) with _ | r
    · simp [parse_meter_line, hp, hf0]
    rcases hf1 : pyFloat (String.mk p1) with _ | v
    · simp [parse_meter_line, hp, hf0, hf1]
    · cases rest <;>
        · simp [parse_meter_line, hp, hf0, hf1]
          exact ⟨p0, p1, ⟨rfl, rfl⟩, by simp [hf0], by simp [hf1]⟩
  · intro line pl p0 p1 p2 rest hpl hp
    rcases hf0 : pyFloat (String.mk p0) with _ | r <;>
      rcases hf1 : pyFloat (String.mk p1) with _ | v <;>
        simp [parse_meter_line, hp, hf0, hf1] at hpl
    rw [← hpl]

/-- Witness for C4: concrete instantiations of the two general parts. -/
theorem c4_parse_amended_witness :
    (∃ p0 p1 rest, (splitComma (pyStrip ("7,8,9" : String).data)).map pyStrip =
        p0 :: p1 :: rest ∧
      (pyFloat (String.mk p0)).isSome = true ∧ (pyFloat (String.mk p1)).isSome = true) ∧
    (⟨1, 2, some 34⟩ : ParsedLine).status =
      pyInt (removePlusAll (String.mk ['3', '+', '4'])) :=
  ⟨(c4_parse_amended.2.2.2.2.1 "7,8,9").mp (by decide),
   c4_parse_amended.2.2.2.2.2 "1,2,3+4" ⟨1, 2, some 34⟩ ['1'] ['2'] ['3', '+', '4'] []
     (by decide) (by decide)⟩



/-- C8 counterexample: the UI_test.py narrative report on the spec's
example session ends with the N/A row for point 2 — there is no trailing
Overall line at all (the report has exactly 7 header lines and 2 rows, and
its last line differs from every possible Overall line). -/
theorem c8_counterexample :
    (resultLinesTest exTest "" "2024-01-01 00:00:00").getLast? = some "2\t\t\tN/A" ∧
    (resultLinesTest exTest "" "2024-01-01 00:00:00").length = 9 ∧
    "2\t\t\tN/A" ≠ "Overall\t" ++ passLabel true ∧
    "2\t\t\tN/A" ≠ "Overall\t" ++ passLabel false := by
  refine ⟨by decide, by decide, by decide, by decide⟩

/-- C8 amended: the UI_2.py report has one tab-separated row per point
(1-based index, both readings at 6 decimals and PASS/NOT PASS, or N/A when
either reading is missing) and ends with an Overall line that reads PASS
iff every point has a resistance value and every passed flag is true; on
the spec's example session the second row is N/A and Overall is NOT PASS.
The UI_test.py narrative report has the same per-point rows but consists
of exactly the 7 header lines plus the rows, with no Overall line. -/
theorem c8_report_amended :
    (∀ (st : App2State) (m t : String),
      (resultLines2 st m t).getLast? =
        some ("Overall\t" ++ passLabel
          (st.sess.rValues.all Option.isSome && st.sess.flags.all (fun b => b)))) ∧
    (∀ (st : App2State) (m t : String),
      ((resultLines2 st m t).getLast? = some "Overall\tPASS" ↔
        (∀ r ∈ st.sess.rValues, r.isSome = true) ∧ (∀ f ∈ st.sess.flags, f = true))) ∧
    (∀ (st : App2State) (m t : String) (i : Nat), i < st.numPoints →
      (resultLines2 st m t)[7 + i]? = some (resultRow st.sess i)) ∧
    (∀ (sess : Session) (i : Nat),
      sess.rValues.getD i none = none ∨ sess.vValues.getD i none = none →
      resultRow sess i = toString (i + 1) ++ "\t\t\tN/A") ∧
    (∀ (sess : Session) (i : Nat) (r v : ℚ),
      sess.rValues.getD i none = some r → sess.vValues.getD i none = some v →
      resultRow sess i = toString (i + 1) ++ "\t" ++ fmt6 r ++ "\t" ++ fmt6 v ++ "\t" ++
        passLabel (sess.flags.getD i false)) ∧
    refreshRows exApp2 = exApp2 ∧
    (resultLines2 exApp2 "" "2024-01-01 00:00:00")[8]? = some "2\t\t\tN/A" ∧
    (resultLines2 exApp2 "" "2024-01-01 00:00:00").getLast? = some "Overall\tNOT PASS" ∧
    fmt6 (mkRat 101 10) = "10.100000" ∧
    fmt6 5 = "5.000000" ∧
    (∀ (st : TestState) (m t : String),
      (resultLinesTest st m t).length = 7 + st.numPoints) ∧
    refreshRowsTest exTest = exTest := by
  have hlast : ∀ (st : App2State) (m t : String),
      (resultLines2 st m t).getLast? =
        some ("Overall\t" ++ passLabel
          (st.sess.rValues.all Option.isSome && st.sess.flags.all (fun b => b))) := by
    intro st m t
    rw [resultLines2, List.getLast?_append_of_ne_nil _ (by simp)]
    rfl
  refine ⟨hlast, ?_, ?_, ?_, ?_, by decide, by decide, ?_, by decide, by decide, ?_, ?_⟩
  · intro st m t
    rw [hlast st m t]
    rcases hb : (st.sess.rValues.all Option.isSome && st.sess.flags.all (fun b => b)) with _ | _
    · rw [show ("Overall\t" ++ passLabel false) = "Overall\tNOT PASS" from by decide]
      simp only [Option.some.injEq]
      constructor
      · intro hc
        exact absurd hc (by decide)
      · intro hrhs
        exfalso
        have hall : (st.sess.rValues.all Option.isSome &&
            st.sess.flags.all (fun b => b)) = true :=
          Bool.and_eq_true _ _ |>.mpr
            ⟨List.all_eq_true.mpr hrhs.1, List.all_eq_true.mpr hrhs.2⟩
        rw [hb] at hall
        exact Bool.false_ne_true hall
    · rw [show ("Overall\t" ++ passLabel true) = "Overall\tPASS" from by decide]
      simp only [Option.some.injEq]
      simp only [Bool.and_eq_true, List.all_eq_true] at hb
      exact ⟨fun _ => ⟨hb.1, hb.2⟩, fun _ => trivial⟩
  · intro st m t i h
    rw [resultLines2]
    rw [List.getElem?_append, List.getElem?_append]
    simp [h]
    intro h2
    omega
  · intro sess i h
    rcases h with h | h <;> simp [resultRow, h] <;> split <;> simp_all
  · intro sess i r v hr hv
    simp only [List.getD, List.get?_eq_getElem?] at hr hv
    simp [resultRow, List.getD, List.get?_eq_getElem?, hr, hv]
  · rw [hlast]
    decide
  · intro st m t
    simp [resultLinesTest]
    omega
  · simp [refreshRowsTest, limitsTest, boundsSetTol, exTest, exSession, rowFlag, rowPass,
      okReading, within]
    norm_num [Rat.mkRat_eq_div]

/-- Witness for C8: the row lemmas applied at the example session. -/
theorem c8_report_amended_witness :
    (resultLines2 exApp2 "" "t")[7 + 1]? = some (resultRow exApp2.sess 1) ∧
    resultRow exSession 1 = toString (1 + 1) ++ "\t\t\tN/A" ∧
    resultRow exSession 0 = toString (0 + 1) ++ "\t" ++ fmt6 (mkRat 101 10) ++ "\t" ++
      fmt6 5 ++ "\t" ++ passLabel (exSession.flags.getD 0 false) :=
  ⟨c8_report_amended.2.2.1 exApp2 "" "t" 1 (by decide),
   c8_report_amended.2.2.2.1 exSession 1 (Or.inl (by decide)),
   c8_report_amended.2.2.2.2.1 exSession 0 (mkRat 101 10) 5 (by decide) (by decide)⟩



lemma pyUniform_mem (a b u : ℚ) (hab : a ≤ b) (h0 : 0 ≤ u) (h1 : u ≤ 1) :
    a ≤ pyUniform a b u ∧ pyUniform a b u ≤ b := by
  unfold pyUniform
  constructor <;> nlinarith

/-- C9: for any limits with min ≤ max on each axis and unit draws in
[0,1], the simulated generator takes the pass-biased branch exactly when
the primitive draw p is below 0.8, producing each axis uniformly within
±0.6 of the half-span around the center; otherwise (p ≥ 0.8, probability
0.2 of a uniform p) it displaces each center by a drawn amount between 0.7
and 1.6 half-spans with the randomly chosen sign. -/
theorem c9_sim_contract (L : Limits) (p uR uV : ℚ) (sR sV : Bool)
    (hR : L.rmin ≤ L.rmax) (hV : L.vmin ≤ L.vmax)
    (huR0 : 0 ≤ uR) (huR1 : uR ≤ 1) (huV0 : 0 ≤ uV) (huV1 : uV ≤ 1) :
    (p < 0.8 →
      (L.rmin + L.rmax) / 2 - 0.6 * ((L.rmax - L.rmin) / 2) ≤
          (readMeterSim L p uR uV sR sV).1 ∧
      (readMeterSim L p uR uV sR sV).1 ≤
          (L.rmin + L.rmax) / 2 + 0.6 * ((L.rmax - L.rmin) / 2) ∧
      (L.vmin + L.vmax) / 2 - 0.6 * ((L.vmax - L.vmin) / 2) ≤
          (readMeterSim L p uR uV sR sV).2 ∧
      (readMeterSim L p uR uV sR sV).2 ≤
          (L.vmin + L.vmax) / 2 + 0.6 * ((L.vmax - L.vmin) / 2)) ∧
    (0.8 ≤ p →
      ∃ dR dV : ℚ,
        0.7 * ((L.rmax - L.rmin) / 2) ≤ dR ∧ dR ≤ 1.6 * ((L.rmax - L.rmin) / 2) ∧
        0.7 * ((L.vmax - L.vmin) / 2) ≤ dV ∧ dV ≤ 1.6 * ((L.vmax - L.vmin) / 2) ∧
        readMeterSim L p uR uV sR sV =
          ((L.rmin + L.rmax) / 2 + pySignChoice sR * dR,
           (L.vmin + L.vmax) / 2 + pySignChoice sV * dV)) := by
  have hrs : (0:ℚ) ≤ (L.rmax - L.rmin) / 2 := by linarith
  have hvs : (0:ℚ) ≤ (L.vmax - L.vmin) / 2 := by linarith
  constructor
  · intro hp
    rw [readMeterSim, if_pos hp]
    obtain ⟨a1, a2⟩ := pyUniform_mem
      ((L.rmin + L.rmax) / 2 - 0.6 * ((L.rmax - L.rmin) / 2))
      ((L.rmin + L.rmax) / 2 + 0.6 * ((L.rmax - L.rmin) / 2)) uR (by nlinarith) huR0 huR1
    obtain ⟨b1, b2⟩ := pyUniform_mem
      ((L.vmin + L.vmax) / 2 - 0.6 * ((L.vmax - L.vmin) / 2))
      ((L.vmin + L.vmax) / 2 + 0.6 * ((L.vmax - L.vmin) / 2)) uV (by nlinarith) huV0 huV1
    exact ⟨a1, a2, b1, b2⟩
  · intro hp
    rw [readMeterSim, if_neg (not_lt.mpr hp)]
    refine ⟨pyUniform (0.7 * ((L.rmax - L.rmin) / 2)) (1.6 * ((L.rmax - L.rmin) / 2)) uR,
            pyUniform (0.7 * ((L.vmax - L.vmin) / 2)) (1.6 * ((L.vmax - L.vmin) / 2)) uV,
            ?_, ?_, ?_, ?_, rfl⟩
    · exact (pyUniform_mem _ _ uR (by nlinarith) huR0 huR1).1
    · exact (pyUniform_mem _ _ uR (by nlinarith) huR0 huR1).2
    · exact (pyUniform_mem _ _ uV (by nlinarith) huV0 huV1).1
    · exact (pyUniform_mem _ _ uV (by nlinarith) huV0 huV1).2



lemma ratLitZeroLtEight : (0:ℚ) < 0.8 := by norm_num

/-- Witness for C9: the pass branch at limits [9,11]×[4,6] with p = 0. -/
theorem c9_sim_contract_witness :
    ((⟨9, 11, 4, 6⟩ : Limits).rmin ≤ (⟨9, 11, 4, 6⟩ : Limits).rmax ∧
     (⟨9, 11, 4, 6⟩ : Limits).vmin ≤ (⟨9, 11, 4, 6⟩ : Limits).vmax ∧
     (0:ℚ) ≤ 0 ∧ (0:ℚ) ≤ 1 ∧ (0:ℚ) < 0.8) ∧
    (((9:ℚ) + 11) / 2 - 0.6 * (((11:ℚ) - 9) / 2) ≤
        (readMeterSim ⟨9, 11, 4, 6⟩ 0 0 0 true true).1 ∧
      (readMeterSim ⟨9, 11, 4, 6⟩ 0 0 0 true true).1 ≤
        ((9:ℚ) + 11) / 2 + 0.6 * (((11:ℚ) - 9) / 2) ∧
      ((4:ℚ) + 6) / 2 - 0.6 * (((6:ℚ) - 4) / 2) ≤
        (readMeterSim ⟨9, 11, 4, 6⟩ 0 0 0 true true).2 ∧
      (readMeterSim ⟨9, 11, 4, 6⟩ 0 0 0 true true).2 ≤
        ((4:ℚ) + 6) / 2 + 0.6 * (((6:ℚ) - 4) / 2)) :=
  ⟨⟨by decide, by decide, by decide, by decide, ratLitZeroLtEight⟩,
   (c9_sim_contract ⟨9, 11, 4, 6⟩ 0 0 0 true true (by decide) (by decide)
      (by decide) (by decide) (by decide) (by decide)).1 ratLitZeroLtEight⟩

lemma splitChar_ne_nil (sep : Char) (cs : List Char) : splitChar sep cs ≠ [] := by
  cases cs with
  | nil => simp [splitChar]
  | cons c rest =>
    simp only [splitChar]
    split
    · simp
    · rcases h : splitChar sep rest with _ | ⟨g, gs⟩ <;> simp [h]

lemma joinPath_cons_head (g : List Char) (gs : List (List Char)) (c : Char) :
    joinPath ((c :: g) :: gs) = c :: joinPath (g :: gs) := by
  cases gs <;> rfl

lemma joinPath_splitChar (cs : List Char) : joinPath (splitChar '/' cs) = cs := by
  induction cs with
  | nil => rfl
  | cons c rest ih =>
    simp only [splitChar]
    by_cases h : c = '/'
    · subst h
      simp only [if_pos rfl]
      obtain ⟨g, gs, hg⟩ := List.exists_cons_of_ne_nil (splitChar_ne_nil '/' rest)
      rw [hg]
      rw [hg] at ih
      simpa [joinPath] using ih
    · simp only [if_neg h]
      obtain ⟨g, gs, hg⟩ := List.exists_cons_of_ne_nil (splitChar_ne_nil '/' rest)
      rw [hg]
      rw [hg] at ih
      rw [joinPath_cons_head, ih]

lemma self_mem_ancestorDirs (p : String) : p ∈ ancestorDirs p := by
  rw [ancestorDirs]
  have hlen : 0 < (splitChar '/' p.data).length :=
    List.length_pos.mpr (splitChar_ne_nil '/' p.data)
  refine List.mem_map.mpr ⟨(splitChar '/' p.data).length - 1, ?_, ?_⟩
  · exact List.mem_range.mpr (by omega)
  · rw [Nat.sub_add_cancel hlen, List.take_length, joinPath_splitChar]




/-- C10 counterexample: with a missing save folder that `os.makedirs`
cannot create, both export paths end in an uncaught exception — the
makedirs call sits outside the `try/except` — which is neither the
reported export error of the claim nor a successful write. -/
theorem c10_counterexample :
    ("missing" : String) ∉ exFsBlocked.dirs ∧
    exFsBlocked.creatable "missing" = false ∧
    (exportSnapshot exApp2 "" "missing" "/cwd" "t" "ts" exFsBlocked).2.2 =
      ExportOutcome.uncaught ∧
    (manualExport exApp2 "" "missing" "/cwd" "t" (some "missing/f.txt") exFsBlocked).2.2 =
      ExportOutcome.uncaught ∧
    (∀ msg : String, ExportOutcome.uncaught ≠ ExportOutcome.reportedError msg) ∧
    ExportOutcome.uncaught ≠ ExportOutcome.ok :=
  ⟨by decide, rfl, by decide, by decide, fun msg h => ExportOutcome.noConfusion h, by decide⟩

/-- C10 amended: the resolved save folder is created (with all parent
directories) before writing whenever it exists or can be created, so a
missing-but-creatable folder never surfaces as an export failure, and in
that case the reported export error occurs exactly when the destination
is unwritable (a cancelled manual-export dialog reports nothing); but
because `os.makedirs` runs outside the `try/except`, an uncreatable
destination folder raises an uncaught exception instead of the reported
error — in the manual path even before the save dialog; session state is
unchanged in every case. -/
theorem c10_export_amended (st : App2State) (mn sf cwd t ts dp : String) (fs : FileSys) :
    ((exportSnapshot st mn sf cwd t ts fs).1 = st ∧
     (manualExport st mn sf cwd t (some dp) fs).1 = st ∧
     (manualExport st mn sf cwd t none fs).1 = st) ∧
    (saveFolderOrCwd sf cwd ∈ fs.dirs ∨ fs.creatable (saveFolderOrCwd sf cwd) = true →
      saveFolderOrCwd sf cwd ∈ (exportSnapshot st mn sf cwd t ts fs).2.1.dirs ∧
      (∀ q ∈ ancestorDirs (saveFolderOrCwd sf cwd),
        q ∈ (exportSnapshot st mn sf cwd t ts fs).2.1.dirs) ∧
      ((exportSnapshot st mn sf cwd t ts fs).2.2 = ExportOutcome.ok ↔
        fs.writable (saveFolderOrCwd sf cwd ++ "/" ++
          (modelOrDefault mn "model" ++ "_" ++ ts ++ ".txt")) = true) ∧
      ((exportSnapshot st mn sf cwd t ts fs).2.2 =
          ExportOutcome.reportedError "Auto export failed" ↔
        ¬ fs.writable (saveFolderOrCwd sf cwd ++ "/" ++
          (modelOrDefault mn "model" ++ "_" ++ ts ++ ".txt")) = true) ∧
      ((manualExport st mn sf cwd t (some dp) fs).2.2 = ExportOutcome.ok ↔
        fs.writable dp = true) ∧
      (manualExport st mn sf cwd t none fs).2.2 = ExportOutcome.ok) ∧
    (saveFolderOrCwd sf cwd ∉ fs.dirs → fs.creatable (saveFolderOrCwd sf cwd) = false →
      (exportSnapshot st mn sf cwd t ts fs).2.2 = ExportOutcome.uncaught ∧
      (manualExport st mn sf cwd t (some dp) fs).2.2 = ExportOutcome.uncaught ∧
      (manualExport st mn sf cwd t none fs).2.2 = ExportOutcome.uncaught) := by
  by_cases hc : saveFolderOrCwd sf cwd ∈ fs.dirs ∨ fs.creatable (saveFolderOrCwd sf cwd) = true
  · refine ⟨⟨?_, ?_, ?_⟩, ?_, ?_⟩
    · by_cases h : fs.writable (saveFolderOrCwd sf cwd ++ "/" ++
        (modelOrDefault mn "model" ++ "_" ++ ts ++ ".txt")) <;>
        simp [exportSnapshot, makedirs, hc, h]
    · by_cases h : fs.writable dp <;> simp [manualExport, makedirs, hc, h]
    · simp [manualExport, makedirs, hc]
    · intro _
      refine ⟨?_, ?_, ?_, ?_, ?_, ?_⟩
      · by_cases h : fs.writable (saveFolderOrCwd sf cwd ++ "/" ++
          (modelOrDefault mn "model" ++ "_" ++ ts ++ ".txt")) <;>
          simp [exportSnapshot, makedirs, hc, h] <;>
          exact Or.inl (self_mem_ancestorDirs _)
      · intro q hq
        by_cases h : fs.writable (saveFolderOrCwd sf cwd ++ "/" ++
          (modelOrDefault mn "model" ++ "_" ++ ts ++ ".txt")) <;>
          simp [exportSnapshot, makedirs, hc, h] <;>
          exact Or.inl hq
      · by_cases h : fs.writable (saveFolderOrCwd sf cwd ++ "/" ++
          (modelOrDefault mn "model" ++ "_" ++ ts ++ ".txt")) <;>
          simp [exportSnapshot, makedirs, hc, h]
      · by_cases h : fs.writable (saveFolderOrCwd sf cwd ++ "/" ++
          (modelOrDefault mn "model" ++ "_" ++ ts ++ ".txt")) <;>
          simp [exportSnapshot, makedirs, hc, h]
      · by_cases h : fs.writable dp <;> simp [manualExport, makedirs, hc, h]
      · simp [manualExport, makedirs, hc]
    · intro hmem hcr
      exact absurd hc (by simp [hmem, hcr])
  · refine ⟨⟨?_, ?_, ?_⟩, fun h => absurd h hc, fun _ _ => ?_⟩
    · simp [exportSnapshot, makedirs, hc]
    · simp [manualExport, makedirs, hc]
    · simp [manualExport, makedirs, hc]
    · exact ⟨by simp [exportSnapshot, makedirs, hc],
             by simp [manualExport, makedirs, hc],
             by simp [manualExport, makedirs, hc]⟩

/-- Witness for C10 at concrete filesystems: a creatable nested folder is
created together with its parent, and an uncreatable one crashes
uncaught. -/
theorem c10_export_amended_witness :
    (saveFolderOrCwd "out/sub" "/cwd" ∈ exFsFree.dirs ∨
      exFsFree.creatable (saveFolderOrCwd "out/sub" "/cwd") = true) ∧
    ("out" : String) ∈
      (exportSnapshot exApp2 "" "out/sub" "/cwd" "t" "ts" exFsFree).2.1.dirs ∧
    (saveFolderOrCwd "missing" "/cwd" ∉ exFsBlocked.dirs ∧
      exFsBlocked.creatable (saveFolderOrCwd "missing" "/cwd") = false) ∧
    (exportSnapshot exApp2 "" "missing" "/cwd" "t" "ts" exFsBlocked).2.2 =
      ExportOutcome.uncaught :=
  ⟨Or.inr rfl,
   ((c10_export_amended exApp2 "" "out/sub" "/cwd" "t" "ts" "p" exFsFree).2.1
      (Or.inr rfl)).2.1 "out" (by decide),
   ⟨by decide, rfl⟩,
   ((c10_export_amended exApp2 "" "missing" "/cwd" "t" "ts" "p" exFsBlocked).2.2
      (by decide) rfl).1⟩


end MeasureRV
